import Mathlib

/-!
Verification of the musical-CAPTCHA server core (src/server.js).

Shallow embedding of the challenge/verify protocol and the waveform
synthesis of `src/server.js`.  JavaScript numbers are modelled as exact
rationals (`ℚ`): every constant in the source is a decimal literal, and all
floor computations land on the same integers as IEEE doubles do for these
values.  The two sources of randomness (`Math.random()` in the challenge
loop and in the noise loop) are modelled as injected streams
`rand : ℕ → ℚ` whose values lie in `[0, 1)`, one draw per loop iteration.
`undefined` (the result of an out-of-range JavaScript array read) is
modelled by the explicit sentinel string `"undefined"` via `List.getD`.
-/

namespace MusicalCaptcha

/-- `const NOTES = ['C4', 'D4', 'E4', 'F4', 'G4', 'A4', 'B4']` -/
def NOTES : List String := ["C4", "D4", "E4", "F4", "G4", "A4", "B4"]

/-- `const CHALLENGE_LENGTH = 5` -/
def CHALLENGE_LENGTH : ℕ := 5

/-- `const noteFrequencies = { 'C4': 261.63, ... }`; a missing key reads as
`undefined` in JavaScript, modelled by `none`. -/
def noteFrequencies : String → Option ℚ
  | "C4" => some 261.63
  | "D4" => some 293.66
  | "E4" => some 329.63
  | "F4" => some 349.23
  | "G4" => some 392.00
  | "A4" => some 440.00
  | "B4" => some 493.88
  | _ => none

/-- `const SAMPLE_RATE = 44100` -/
def SAMPLE_RATE : ℚ := 44100

/-- `const NOTE_DURATION_BASE = 0.4` -/
def NOTE_DURATION_BASE : ℚ := 0.4

/-- `const SILENCE_DURATION_BASE = 0.2` -/
def SILENCE_DURATION_BASE : ℚ := 0.2

/-- `const NOISE_AMPLITUDE = 0.08` -/
def NOISE_AMPLITUDE : ℚ := 0.08

/-- `const PADDING_DURATION_SEC = 0.5` -/
def PADDING_DURATION_SEC : ℚ := 0.5

/-- `const noteSamples = Math.floor(NOTE_DURATION_BASE * SAMPLE_RATE)` -/
def noteSamples : ℕ := (⌊NOTE_DURATION_BASE * SAMPLE_RATE⌋ : ℤ).toNat

/-- `const silenceSamples = Math.floor(SILENCE_DURATION_BASE * SAMPLE_RATE)` -/
def silenceSamples : ℕ := (⌊SILENCE_DURATION_BASE * SAMPLE_RATE⌋ : ℤ).toNat

/-- `const paddingSamples = Math.floor(PADDING_DURATION_SEC * SAMPLE_RATE)` -/
def paddingSamples : ℕ := (⌊PADDING_DURATION_SEC * SAMPLE_RATE⌋ : ℤ).toNat

/-- `const attackTimeSec = 0.02` (local to the per-note loop) -/
def attackTimeSec : ℚ := 0.02

/-- `const attackSamples = Math.floor(attackTimeSec * SAMPLE_RATE)` -/
def attackSamples : ℕ := (⌊attackTimeSec * SAMPLE_RATE⌋ : ℤ).toNat

/-- `const maxAmplitude = 0.5` -/
def maxAmplitude : ℚ := 0.5

/-- Body of the inner sample loop of `generateAudioData` for a note with a
known frequency: sawtooth oscillator times the attack-decay envelope,
`audioData[currentPosition + i] = rawSample * Math.max(0, amplitude)`. -/
def toneSample (frequency : ℚ) (i : ℕ) : ℚ :=
  let time : ℚ := i / SAMPLE_RATE
  let period : ℚ := 1 / frequency
  let rawSample : ℚ := 2 * (time / period - ((⌊(0.5 : ℚ) + time / period⌋ : ℤ) : ℚ))
  let amplitude : ℚ :=
    if i < attackSamples then
      maxAmplitude * ((i : ℚ) / (attackSamples : ℚ))
    else
      maxAmplitude * (1 - ((i : ℚ) - (attackSamples : ℚ)) / ((noteSamples : ℚ) - (attackSamples : ℚ)))
  rawSample * max 0 amplitude

/-- The `noteSamples` samples written for one note of the melody.  When
`noteFrequencies[note]` is `undefined` the source's `if (frequency)` guard
skips the loop and the freshly allocated `Float32Array` positions keep
their initial value `0`. -/
def toneSeg (note : String) : List ℚ :=
  match noteFrequencies note with
  | some frequency => (List.range noteSamples).map (toneSample frequency)
  | none => List.replicate noteSamples 0

/-- The melody region of the buffer: for each note, its tone segment
followed by `silenceSamples` positions left at `0` (the loop advances
`currentPosition` by `noteSamples + silenceSamples`). -/
def melody (notes : List String) : List ℚ :=
  notes.flatMap (fun note => toneSeg note ++ List.replicate silenceSamples 0)

/-- The assembled buffer before the noise pass: padding, melody, padding
(`totalSamples = paddingSamples + melodySamples + paddingSamples`). -/
def audioRaw (notes : List String) : List ℚ :=
  List.replicate paddingSamples 0 ++ melody notes ++ List.replicate paddingSamples 0

/-- One noise term: `(Math.random() * 2 - 1) * NOISE_AMPLITUDE`, with the
`i`-th draw of the stream standing for the `i`-th call of `Math.random()`
in the noise loop. -/
def noiseSample (rand : ℕ → ℚ) (i : ℕ) : ℚ :=
  (rand i * 2 - 1) * NOISE_AMPLITUDE

/-- `generateAudioData`: assemble the buffer, then
`for (i = 0; i < totalSamples; i++) audioData[i] += noise`.  The source
returns the mono buffer wrapped in a one-element channel array; we return
the buffer itself. -/
def generateAudioData (rand : ℕ → ℚ) (notes : List String) : List ℚ :=
  (audioRaw notes).mapIdx (fun i x => x + noiseSample rand i)

/-- The per-session state touched by the two handlers.  `solution` is
`req.session.solution` (`none` for absent or `null`); `rest` stands for
every other field of the express session object, which the handlers never
touch. -/
structure Session where
  solution : Option (List String)
  rest : List (String × String)
deriving DecidableEq, Repr

/-- The JSON body sent by `/api/verify`: `{ success, message }`. -/
structure VerifyResponse where
  success : Bool
  message : String
deriving DecidableEq, Repr

/-- `res.json({ success: false, message: 'Invalid request.' })` -/
def invalidResponse : VerifyResponse :=
  { success := false, message := "Invalid request." }

/-- The `/api/verify` handler.  `userAnswer` is `none` when the request
body carries no answer.  The guard
`if (!solution || !userAnswer || userAnswer.length !== solution.length)`
returns early, before the session is touched; otherwise
`userAnswer.every((note, index) => note === solution[index])` is computed,
`req.session.solution = null` is performed, and the verdict is sent. -/
def verify (sess : Session) (userAnswer : Option (List String)) :
    VerifyResponse × Session :=
  match sess.solution, userAnswer with
  | some solution, some answer =>
    if answer.length ≠ solution.length then
      (invalidResponse, sess)
    else
      let isCorrect :=
        (List.range answer.length).all
          (fun index => answer.getD index "undefined" == solution.getD index "undefined")
      (if isCorrect then
        { success := true, message := "Verification successful!" }
      else
        { success := false, message := "Incorrect. Please try again." },
       { sess with solution := none })
  | _, _ => (invalidResponse, sess)

/-- The fresh-challenge loop of `/api/challenge`:
`challenge.push(NOTES[Math.floor(Math.random() * NOTES.length)])`,
`CHALLENGE_LENGTH` times.  An out-of-range read of `NOTES` would produce
JavaScript `undefined`, modelled by the `"undefined"` default of
`List.getD`. -/
def buildChallenge (rand : ℕ → ℚ) : List String :=
  (List.range CHALLENGE_LENGTH).map
    (fun i => NOTES.getD (⌊rand i * (NOTES.length : ℚ)⌋ : ℤ).toNat "undefined")

/-- The session logic of the `/api/challenge` handler: reuse
`req.session.solution` when present, otherwise generate a fresh challenge
and store it.  Returns the challenge used for audio generation together
with the updated session. -/
def createChallenge (rand : ℕ → ℚ) (sess : Session) : List String × Session :=
  match sess.solution with
  | some sol => (sol, sess)
  | none =>
    let challenge := buildChallenge rand
    (challenge, { sess with solution := some challenge })

/-- The disjunction guarding the early-return branch of `/api/verify`:
no stored solution, no submitted answer, or a length mismatch. -/
def invalidGuard (sess : Session) (ans : Option (List String)) : Prop :=
  sess.solution = none ∨ ans = none ∨
    ∃ sol a, sess.solution = some sol ∧ ans = some a ∧ a.length ≠ sol.length

/-! ### Helper lemmas: the verify comparison -/

lemma all_getD_iff_eq (a b : List String) (hlen : a.length = b.length) :
    ((List.range a.length).all
      (fun i => a.getD i "undefined" == b.getD i "undefined") = true) ↔ a = b := by
  rw [List.all_eq_true]
  constructor
  · intro h
    apply List.ext_getElem hlen
    intro i h1 h2
    have := h i (List.mem_range.mpr h1)
    rw [beq_iff_eq, List.getD_eq_getElem _ _ h1, List.getD_eq_getElem _ _ h2] at this
    exact this
  · intro h i hi
    subst h
    simp

lemma verify_none (sess : Session) (ans : Option (List String))
    (hsol : sess.solution = none) : verify sess ans = (invalidResponse, sess) := by
  unfold verify
  rw [hsol]

lemma verify_noans (sess : Session) : verify sess none = (invalidResponse, sess) := by
  unfold verify
  cases h : sess.solution <;> rfl

lemma verify_some_some (sess : Session) (sol ans : List String)
    (hsol : sess.solution = some sol) :
    verify sess (some ans) =
      if ans.length ≠ sol.length then (invalidResponse, sess)
      else
        (if (List.range ans.length).all
              (fun index => ans.getD index "undefined" == sol.getD index "undefined") then
          { success := true, message := "Verification successful!" }
        else
          { success := false, message := "Incorrect. Please try again." },
         { sess with solution := none }) := by
  unfold verify
  rw [hsol]

lemma verify_mismatch (sess : Session) (sol ans : List String)
    (hsol : sess.solution = some sol) (hlen : ans.length ≠ sol.length) :
    verify sess (some ans) = (invalidResponse, sess) := by
  rw [verify_some_some sess sol ans hsol, if_pos hlen]

lemma verify_invalid (sess : Session) (ans : Option (List String))
    (h : invalidGuard sess ans) : verify sess ans = (invalidResponse, sess) := by
  rcases h with h | h | ⟨sol, a, hsol, hans, hlen⟩
  · exact verify_none sess ans h
  · subst h; exact verify_noans sess
  · subst hans; exact verify_mismatch sess sol a hsol hlen

lemma verify_success_iff (sess : Session) (sol ans : List String)
    (hsol : sess.solution = some sol) (hlen : ans.length = sol.length) :
    ((verify sess (some ans)).1.success = true ↔ ans = sol) := by
  rw [verify_some_some sess sol ans hsol, if_neg (by simp [hlen])]
  rw [← all_getD_iff_eq ans sol hlen]
  split <;> rename_i h <;> simp_all

lemma verify_clears (sess : Session) (sol ans : List String)
    (hsol : sess.solution = some sol) (hlen : ans.length = sol.length) :
    (verify sess (some ans)).2 = { sess with solution := none } := by
  rw [verify_some_some sess sol ans hsol, if_neg (by simp [hlen])]

/-! ### Helper lemmas: the challenge generator -/

lemma randomIndex_lt (r : ℚ) (h1 : r < 1) :
    (⌊r * (NOTES.length : ℚ)⌋ : ℤ).toNat < NOTES.length := by
  have hlen : ((NOTES.length : ℚ)) = 7 := by norm_num [NOTES]
  have hfl : (⌊r * (NOTES.length : ℚ)⌋ : ℤ) < 7 := by
    rw [hlen]
    have : r * 7 < 7 := by nlinarith
    exact Int.floor_lt.mpr (by push_cast; linarith)
  have : NOTES.length = 7 := by norm_num [NOTES]
  omega

/-! ### Helper lemmas: sample counts -/

lemma noteSamples_eq : noteSamples = 17640 := by
  have h : NOTE_DURATION_BASE * SAMPLE_RATE = (17640 : ℚ) := by
    norm_num [NOTE_DURATION_BASE, SAMPLE_RATE]
  rw [noteSamples, h]
  norm_num
  rfl

lemma silenceSamples_eq : silenceSamples = 8820 := by
  have h : SILENCE_DURATION_BASE * SAMPLE_RATE = (8820 : ℚ) := by
    norm_num [SILENCE_DURATION_BASE, SAMPLE_RATE]
  rw [silenceSamples, h]
  norm_num
  rfl

lemma paddingSamples_eq : paddingSamples = 22050 := by
  have h : PADDING_DURATION_SEC * SAMPLE_RATE = (22050 : ℚ) := by
    norm_num [PADDING_DURATION_SEC, SAMPLE_RATE]
  rw [paddingSamples, h]
  norm_num
  rfl

lemma attackSamples_eq : attackSamples = 882 := by
  have h : attackTimeSec * SAMPLE_RATE = (882 : ℚ) := by
    norm_num [attackTimeSec, SAMPLE_RATE]
  rw [attackSamples, h]
  norm_num
  rfl

lemma toneSeg_length (note : String) : (toneSeg note).length = noteSamples := by
  unfold toneSeg
  cases noteFrequencies note <;> simp

lemma melody_length (notes : List String) :
    (melody notes).length = notes.length * (noteSamples + silenceSamples) := by
  induction notes with
  | nil => simp [melody]
  | cons n ns ih =>
    simp only [melody, List.flatMap_cons, List.length_append, toneSeg_length,
      List.length_replicate, List.length_cons] at *
    rw [ih]
    ring

lemma audioRaw_length (notes : List String) :
    (audioRaw notes).length =
      2 * paddingSamples + notes.length * (noteSamples + silenceSamples) := by
  simp [audioRaw, melody_length]
  ring

lemma generateAudioData_length (rand : ℕ → ℚ) (notes : List String) :
    (generateAudioData rand notes).length =
      2 * paddingSamples + notes.length * (noteSamples + silenceSamples) := by
  simp [generateAudioData, audioRaw_length]

/-! ### Helper lemmas: amplitude bounds -/

lemma abs_sawtooth_le (y : ℚ) : |2 * (y - ((⌊(0.5 : ℚ) + y⌋ : ℤ) : ℚ))| ≤ 1 := by
  have h1 : ((⌊(0.5 : ℚ) + y⌋ : ℤ) : ℚ) ≤ 0.5 + y := Int.floor_le _
  have h2 : (0.5 : ℚ) + y < (⌊(0.5 : ℚ) + y⌋ : ℤ) + 1 := Int.lt_floor_add_one _
  rw [abs_le]
  constructor <;> linarith

lemma abs_toneSample_le (frequency : ℚ) (i : ℕ) :
    |toneSample frequency i| ≤ maxAmplitude := by
  unfold toneSample
  rw [abs_mul]
  have hsaw := abs_sawtooth_le ((i : ℚ) / SAMPLE_RATE / (1 / frequency))
  have hampnn : (0 : ℚ) ≤ max 0 (if i < attackSamples then
      maxAmplitude * ((i : ℚ) / (attackSamples : ℚ))
    else
      maxAmplitude * (1 - ((i : ℚ) - (attackSamples : ℚ)) /
        ((noteSamples : ℚ) - (attackSamples : ℚ)))) := le_max_left _ _
  have hamp : max 0 (if i < attackSamples then
      maxAmplitude * ((i : ℚ) / (attackSamples : ℚ))
    else
      maxAmplitude * (1 - ((i : ℚ) - (attackSamples : ℚ)) /
        ((noteSamples : ℚ) - (attackSamples : ℚ)))) ≤ maxAmplitude := by
    rw [max_le_iff]
    refine ⟨by norm_num [maxAmplitude], ?_⟩
    have hm : maxAmplitude = 1/2 := by norm_num [maxAmplitude]
    split
    · rename_i h
      rw [attackSamples_eq] at h
      rw [attackSamples_eq, hm]
      have hi1 : (i : ℚ) ≤ 882 := by
        exact_mod_cast Nat.le_of_lt h
      have hi0 : (0 : ℚ) ≤ (i : ℚ) := by positivity
      have hd : (i : ℚ) / ((882 : ℕ) : ℚ) ≤ 1 := by
        rw [div_le_one (by norm_num)]
        push_cast
        linarith
      nlinarith [hd]
    · rename_i h
      rw [attackSamples_eq] at h
      rw [attackSamples_eq, noteSamples_eq, hm]
      have hi1 : (882 : ℚ) ≤ (i : ℚ) := by
        exact_mod_cast Nat.le_of_not_lt h
      have hnn : (0 : ℚ) ≤ ((i : ℚ) - ((882 : ℕ) : ℚ)) / (((17640 : ℕ) : ℚ) - ((882 : ℕ) : ℚ)) := by
        apply div_nonneg <;> push_cast <;> linarith
      nlinarith [hnn]
  calc |2 * ((i : ℚ) / SAMPLE_RATE / (1 / frequency) -
          ((⌊(0.5 : ℚ) + (i : ℚ) / SAMPLE_RATE / (1 / frequency)⌋ : ℤ) : ℚ))| *
        |max 0 _| ≤ 1 * maxAmplitude := by
          refine mul_le_mul hsaw ?_ (abs_nonneg _) (by norm_num)
          rw [abs_of_nonneg hampnn]
          exact hamp
    _ = maxAmplitude := one_mul _

lemma toneSample_zero (frequency : ℚ) : toneSample frequency 0 = 0 := by
  unfold toneSample
  rw [attackSamples_eq]
  rw [if_pos (by norm_num)]
  norm_num

lemma abs_toneSample_last (frequency : ℚ) :
    |toneSample frequency (noteSamples - 1)| ≤ 1/33516 := by
  unfold toneSample
  rw [attackSamples_eq, noteSamples_eq]
  rw [if_neg (by norm_num)]
  dsimp only
  have hamp : maxAmplitude * (1 - (((17640 - 1 : ℕ) : ℚ) - ((882 : ℕ) : ℚ)) /
      (((17640 : ℕ) : ℚ) - ((882 : ℕ) : ℚ))) = 1/33516 := by
    norm_num [maxAmplitude]
  rw [hamp, max_eq_right (by norm_num)]
  rw [abs_mul, abs_of_nonneg (by norm_num : (0:ℚ) ≤ 1/33516)]
  have := abs_sawtooth_le (((17640 - 1 : ℕ) : ℚ) / SAMPLE_RATE / (1 / frequency))
  nlinarith [this, abs_nonneg (2 * (((17640 - 1 : ℕ) : ℚ) / SAMPLE_RATE / (1 / frequency) -
    ((⌊(0.5 : ℚ) + ((17640 - 1 : ℕ) : ℚ) / SAMPLE_RATE / (1 / frequency)⌋ : ℤ) : ℚ)))]

lemma abs_noiseSample_le (rand : ℕ → ℚ) (i : ℕ)
    (h0 : 0 ≤ rand i) (h1 : rand i < 1) :
    |noiseSample rand i| ≤ NOISE_AMPLITUDE := by
  unfold noiseSample
  have hN : NOISE_AMPLITUDE = 2/25 := by norm_num [NOISE_AMPLITUDE]
  rw [hN, abs_mul, abs_of_nonneg (by norm_num : (0:ℚ) ≤ 2/25)]
  have h2 : |rand i * 2 - 1| ≤ 1 := by
    rw [abs_le]
    constructor <;> linarith
  nlinarith [h2]

lemma abs_toneSeg_le (note : String) :
    ∀ x ∈ toneSeg note, |x| ≤ maxAmplitude := by
  intro x hseg
  unfold toneSeg at hseg
  cases hf : noteFrequencies note with
  | some frequency =>
    rw [hf] at hseg
    obtain ⟨i, _, rfl⟩ := List.mem_map.mp hseg
    exact abs_toneSample_le frequency i
  | none =>
    rw [hf] at hseg
    rw [(List.mem_replicate.mp hseg).2]
    norm_num [maxAmplitude]

lemma abs_audioRaw_le (notes : List String) :
    ∀ x ∈ audioRaw notes, |x| ≤ maxAmplitude := by
  intro x hx
  have hz : |(0 : ℚ)| ≤ maxAmplitude := by norm_num [maxAmplitude]
  simp only [audioRaw, melody, List.mem_append, List.mem_flatMap, List.mem_replicate] at hx
  rcases hx with (⟨_, rfl⟩ | ⟨note, _, hseg | hrep⟩) | ⟨_, rfl⟩
  · exact hz
  · exact abs_toneSeg_le note x hseg
  · rw [hrep.2]
    exact hz
  · exact hz

lemma abs_generateAudioData_le (rand : ℕ → ℚ) (notes : List String)
    (hrand : ∀ i, 0 ≤ rand i ∧ rand i < 1) :
    ∀ x ∈ generateAudioData rand notes, |x| ≤ maxAmplitude + NOISE_AMPLITUDE := by
  intro x hx
  unfold generateAudioData at hx
  rw [List.mem_mapIdx] at hx
  obtain ⟨i, hi, rfl⟩ := hx
  calc |(audioRaw notes)[i] + noiseSample rand i|
      ≤ |(audioRaw notes)[i]| + |noiseSample rand i| := abs_add _ _
    _ ≤ maxAmplitude + NOISE_AMPLITUDE := by
        have h1 := abs_audioRaw_le notes _ (List.getElem_mem hi)
        have h2 := abs_noiseSample_le rand i (hrand i).1 (hrand i).2
        linarith

/-! ### Helper lemmas: pointwise evaluation of the artifact -/

lemma audioRaw_single_getElem? (note : String) (frequency : ℚ) (i : ℕ)
    (hf : noteFrequencies note = some frequency) (hi : i < noteSamples) :
    (audioRaw [note])[paddingSamples + i]? = some (toneSample frequency i) := by
  have hrw : audioRaw [note] = List.replicate paddingSamples (0 : ℚ) ++
      ((toneSeg note ++ List.replicate silenceSamples 0) ++
        List.replicate paddingSamples (0 : ℚ)) := by
    simp [audioRaw, melody]
  rw [hrw]
  rw [List.getElem?_append_right (by simp)]
  have h2 : paddingSamples + i - (List.replicate paddingSamples (0 : ℚ)).length = i := by
    simp
  rw [h2]
  rw [List.getElem?_append_left (by
    simp only [List.length_append, toneSeg_length, List.length_replicate]
    omega)]
  rw [List.getElem?_append_left (by rw [toneSeg_length]; exact hi)]
  unfold toneSeg
  rw [hf]
  rw [List.getElem?_map, List.getElem?_range (by simpa using hi)]
  rfl

lemma generateAudioData_single_getD (rand : ℕ → ℚ) (note : String) (frequency : ℚ) (i : ℕ)
    (hf : noteFrequencies note = some frequency) (hi : i < noteSamples) :
    (generateAudioData rand [note]).getD (paddingSamples + i) 0 =
      toneSample frequency i + noiseSample rand (paddingSamples + i) := by
  rw [List.getD_eq_getElem?_getD]
  unfold generateAudioData
  rw [List.getElem?_mapIdx, audioRaw_single_getElem? note frequency i hf hi]
  rfl

lemma toneSample_A4_1754 : toneSample 440 1754 = -460694/972405 := by
  unfold toneSample
  rw [attackSamples_eq, noteSamples_eq]
  simp only []
  have harg : ((1754 : ℕ) : ℚ) / SAMPLE_RATE / (1 / (440 : ℚ)) = 38588/2205 := by
    norm_num [SAMPLE_RATE]
  rw [harg]
  have hfl : (⌊(0.5 : ℚ) + 38588/2205⌋ : ℤ) = 18 := by
    rw [Int.floor_eq_iff]
    constructor <;> norm_num
  rw [hfl]
  rw [if_neg (by norm_num)]
  rw [max_eq_right (by norm_num [maxAmplitude])]
  norm_num [maxAmplitude]

lemma toneSeg_getD (note : String) (frequency : ℚ) (i : ℕ)
    (hf : noteFrequencies note = some frequency) (hi : i < noteSamples) :
    (toneSeg note).getD i 0 = toneSample frequency i := by
  unfold toneSeg
  rw [hf, List.getD_eq_getElem?_getD, List.getElem?_map,
    List.getElem?_range (by simpa using hi)]
  rfl

/-! ### Claim theorems -/

/-- C1: for every session with a pending Solution and every submitted answer
that is present and has the same length as the Solution, `verify` returns
success if and only if the answer equals the Solution element-wise
(case-sensitive exact string match at every position); any position
mismatch yields `success = false`. -/
theorem C1_verify_success_iff_exact_match (sess : Session) (sol ans : List String)
    (hsol : sess.solution = some sol) (hlen : ans.length = sol.length) :
    ((verify sess (some ans)).1.success = true ↔ ans = sol) :=
  verify_success_iff sess sol ans hsol hlen

/-- Witness for C1 at the spec's own example: solution `[C4,D4,E4,F4,G4]`
against the answer `[C4,D4,E4,F4,A4]` is not a success. -/
theorem C1_witness :
    (({ solution := some ["C4", "D4", "E4", "F4", "G4"], rest := [] } : Session).solution
        = some ["C4", "D4", "E4", "F4", "G4"]) ∧
    (["C4", "D4", "E4", "F4", "A4"] : List String).length =
      (["C4", "D4", "E4", "F4", "G4"] : List String).length ∧
    ¬ ((verify { solution := some ["C4", "D4", "E4", "F4", "G4"], rest := [] }
        (some ["C4", "D4", "E4", "F4", "A4"])).1.success = true) :=
  ⟨rfl, rfl, fun h =>
    by simpa using (C1_verify_success_iff_exact_match _ ["C4", "D4", "E4", "F4", "G4"]
      ["C4", "D4", "E4", "F4", "A4"] rfl rfl).mp h⟩

/-- C2 counterexample: a session holding a pending Solution that receives a
`verify` call with an absent answer keeps its Solution — the handler
returns from the guard before `req.session.solution = null` runs, so the
Solution is NOT cleared by every single `verify` call. -/
theorem C2_counterexample :
    (verify { solution := some ["C4", "D4", "E4", "F4", "G4"], rest := [] } none).2.solution
      ≠ none := by
  rw [verify_noans]
  simp

/-- C2 (amended): the stored Solution is cleared by a `verify` call whose
answer is present and of matching length, regardless of whether the answer
is correct; calls that take the generic invalid branch (absent answer,
length mismatch, no Solution) leave the session untouched. -/
theorem C2_cleared_only_after_comparison (sess : Session) (sol ans : List String)
    (hsol : sess.solution = some sol) (hlen : ans.length = sol.length) :
    (verify sess (some ans)).2.solution = none := by
  rw [verify_clears sess sol ans hsol hlen]

/-- Witness for (amended) C2: an incorrect answer of the right length still
clears the Solution. -/
theorem C2_witness :
    (({ solution := some ["C4", "D4", "E4", "F4", "G4"], rest := [] } : Session).solution
        = some ["C4", "D4", "E4", "F4", "G4"]) ∧
    (["B4", "B4", "B4", "B4", "B4"] : List String).length =
      (["C4", "D4", "E4", "F4", "G4"] : List String).length ∧
    (verify { solution := some ["C4", "D4", "E4", "F4", "G4"], rest := [] }
      (some ["B4", "B4", "B4", "B4", "B4"])).2.solution = none :=
  ⟨rfl, rfl, C2_cleared_only_after_comparison _ ["C4", "D4", "E4", "F4", "G4"]
    ["B4", "B4", "B4", "B4", "B4"] rfl rfl⟩

/-- C3: calling `verify` twice in a row with the session's original
Solution as the answer succeeds at most once — the first call returns
success and the second returns the generic invalid outcome, because the
first call cleared the stored Solution. -/
theorem C3_second_verify_fails (sess : Session) (sol : List String)
    (hsol : sess.solution = some sol) :
    (verify sess (some sol)).1.success = true ∧
    (verify (verify sess (some sol)).2 (some sol)).1 = invalidResponse := by
  constructor
  · exact (verify_success_iff sess sol sol hsol rfl).mpr rfl
  · have h2 : (verify sess (some sol)).2 = { sess with solution := none } :=
      verify_clears sess sol sol hsol rfl
    rw [h2, verify_none _ _ rfl]

/-- Witness for C3 at a concrete solution. -/
theorem C3_witness :
    (({ solution := some ["E4", "E4", "G4", "C4", "D4"], rest := [] } : Session).solution
        = some ["E4", "E4", "G4", "C4", "D4"]) ∧
    ((verify { solution := some ["E4", "E4", "G4", "C4", "D4"], rest := [] }
        (some ["E4", "E4", "G4", "C4", "D4"])).1.success = true ∧
     (verify (verify { solution := some ["E4", "E4", "G4", "C4", "D4"], rest := [] }
          (some ["E4", "E4", "G4", "C4", "D4"])).2
        (some ["E4", "E4", "G4", "C4", "D4"])).1 = invalidResponse) :=
  ⟨rfl, C3_second_verify_fails _ ["E4", "E4", "G4", "C4", "D4"] rfl⟩

/-- C4: every Challenge produced by `createChallenge` for a session with no
pending Solution is a sequence of exactly 5 elements, each a member of the
fixed 7-note set — given that every `Math.random()` draw lies in `[0, 1)`,
no out-of-range index (hence no `undefined` element) can occur. -/
theorem C4_challenge_wellformed (rand : ℕ → ℚ) (sess : Session)
    (hrand : ∀ i, 0 ≤ rand i ∧ rand i < 1) (hsol : sess.solution = none) :
    (createChallenge rand sess).1.length = 5 ∧
    ∀ x ∈ (createChallenge rand sess).1, x ∈ NOTES := by
  unfold createChallenge
  rw [hsol]
  refine ⟨by simp [buildChallenge, CHALLENGE_LENGTH], ?_⟩
  intro x hx
  simp only [buildChallenge, List.mem_map, List.mem_range] at hx
  obtain ⟨i, _, rfl⟩ := hx
  have hlt := randomIndex_lt (rand i) (hrand i).2
  rw [List.getD_eq_getElem _ _ hlt]
  exact List.getElem_mem hlt

/-- Witness for C4 with the constant stream `1/2` (index 3, note F4). -/
theorem C4_witness :
    (∀ i : ℕ, 0 ≤ (fun _ => (1 : ℚ)/2) i ∧ (fun _ => (1 : ℚ)/2) i < 1) ∧
    (({ solution := none, rest := [] } : Session).solution = none) ∧
    ((createChallenge (fun _ => (1 : ℚ)/2) { solution := none, rest := [] }).1.length = 5 ∧
     ∀ x ∈ (createChallenge (fun _ => (1 : ℚ)/2) { solution := none, rest := [] }).1, x ∈ NOTES) :=
  ⟨fun _ => by norm_num, rfl,
   C4_challenge_wellformed (fun _ => (1 : ℚ)/2) { solution := none, rest := [] }
     (fun _ => by norm_num) rfl⟩

/-- C5: for every note list (including the empty one) and every noise
stream, the sample buffer produced by `generateAudioData` has length
exactly `2*paddingSamples + N*(noteSamples + silenceSamples)`, the three
counts being floors of the duration constants times the sample rate by
definition. -/
theorem C5_sample_count (rand : ℕ → ℚ) (notes : List String) :
    (generateAudioData rand notes).length =
      2 * paddingSamples + notes.length * (noteSamples + silenceSamples) :=
  generateAudioData_length rand notes

/-- C6 counterexample: with the noise stream constantly `0` (a legal
`Math.random()` value, giving noise `-0.08` at every sample), the sample
at buffer position `paddingSamples + 1754` of the artifact for `[A4]` has
magnitude about `0.554 > maxAmplitude` — the noise overlay can push
samples beyond the configured maximum amplitude. -/
theorem C6_counterexample :
    maxAmplitude <
      |(generateAudioData (fun _ => 0) ["A4"]).getD (paddingSamples + 1754) 0| := by
  rw [generateAudioData_single_getD (fun _ => 0) "A4" 440 1754
    (by norm_num [noteFrequencies]) (by rw [noteSamples_eq]; norm_num)]
  rw [toneSample_A4_1754]
  have hval : (-460694/972405 : ℚ) + noiseSample (fun _ => 0) (paddingSamples + 1754) =
      -2692432/4862025 := by
    norm_num [noiseSample, NOISE_AMPLITUDE]
  rw [hval, abs_of_nonpos (by norm_num)]
  norm_num [maxAmplitude]

/-- C6 (amended): for every recognized note the first sample of its tone
segment is exactly `0` and the last has magnitude at most
`maxAmplitude/(noteSamples - attackSamples) = 1/33516`; before the noise
overlay no sample of the artifact exceeds `maxAmplitude` in magnitude, and
after the noise overlay (per-sample noise magnitude at most
`NOISE_AMPLITUDE`) no sample exceeds `maxAmplitude + NOISE_AMPLITUDE`. -/
theorem C6_envelope_and_peak (rand : ℕ → ℚ) (notes : List String)
    (note : String) (frequency : ℚ) (hf : noteFrequencies note = some frequency)
    (hrand : ∀ i, 0 ≤ rand i ∧ rand i < 1) :
    (toneSeg note).getD 0 0 = 0 ∧
    |(toneSeg note).getD (noteSamples - 1) 0| ≤ 1/33516 ∧
    (∀ x ∈ audioRaw notes, |x| ≤ maxAmplitude) ∧
    (∀ x ∈ generateAudioData rand notes, |x| ≤ maxAmplitude + NOISE_AMPLITUDE) := by
  have hns : 0 < noteSamples := by rw [noteSamples_eq]; norm_num
  refine ⟨?_, ?_, abs_audioRaw_le notes, abs_generateAudioData_le rand notes hrand⟩
  · rw [toneSeg_getD note frequency 0 hf hns]
    exact toneSample_zero frequency
  · rw [toneSeg_getD note frequency (noteSamples - 1) hf (by omega)]
    exact abs_toneSample_last frequency

/-- Witness for (amended) C6 at note A4 with the constant-zero noise
stream. -/
theorem C6_witness :
    noteFrequencies "A4" = some 440 ∧
    (∀ i : ℕ, 0 ≤ (fun _ => (0 : ℚ)) i ∧ (fun _ => (0 : ℚ)) i < 1) ∧
    ((toneSeg "A4").getD 0 0 = 0 ∧
     |(toneSeg "A4").getD (noteSamples - 1) 0| ≤ 1/33516 ∧
     (∀ x ∈ audioRaw ["A4"], |x| ≤ maxAmplitude) ∧
     (∀ x ∈ generateAudioData (fun _ => 0) ["A4"], |x| ≤ maxAmplitude + NOISE_AMPLITUDE)) :=
  ⟨by norm_num [noteFrequencies], fun _ => by norm_num,
   C6_envelope_and_peak (fun _ => 0) ["A4"] "A4" 440
     (by norm_num [noteFrequencies]) (fun _ => by norm_num)⟩

/-- C7: a note name outside the frequency table contributes a tone segment
of zero samples (silence before the noise overlay), and the rest of the
artifact is laid out exactly as if the segment were a normal one — the bad
note never aborts synthesis or disturbs the other notes' segments. -/
theorem C7_unknown_note_is_silence (note : String)
    (h : noteFrequencies note = none) (pre post : List String) :
    toneSeg note = List.replicate noteSamples 0 ∧
    melody (pre ++ note :: post) =
      melody pre ++ List.replicate (noteSamples + silenceSamples) 0 ++ melody post := by
  have hseg : toneSeg note = List.replicate noteSamples 0 := by
    unfold toneSeg
    rw [h]
  refine ⟨hseg, ?_⟩
  rw [List.replicate_add]
  simp only [melody, List.flatMap_append, List.flatMap_cons, List.flatMap_nil, hseg,
    List.append_assoc, List.append_nil]

/-- Witness for C7: the unknown name H7 between C4 and B4. -/
theorem C7_witness :
    noteFrequencies "H7" = none ∧
    (toneSeg "H7" = List.replicate noteSamples 0 ∧
     melody (["C4"] ++ "H7" :: ["B4"]) =
       melody ["C4"] ++ List.replicate (noteSamples + silenceSamples) 0 ++ melody ["B4"]) :=
  ⟨rfl, C7_unknown_note_is_silence "H7" rfl ["C4"] ["B4"]⟩

/-- C8: `createChallenge` reuses an existing pending Solution verbatim and
leaves the whole session untouched; for a session without one it stores
the freshly drawn challenge as the new Solution, touching no other session
state (`rest` is preserved by the record update). -/
theorem C8_challenge_reuse_or_store (rand : ℕ → ℚ) (sess : Session) :
    (∀ sol, sess.solution = some sol → createChallenge rand sess = (sol, sess)) ∧
    (sess.solution = none → createChallenge rand sess =
      (buildChallenge rand, { sess with solution := some (buildChallenge rand) })) := by
  constructor
  · intro sol h
    unfold createChallenge
    rw [h]
  · intro h
    unfold createChallenge
    rw [h]

/-- Witness for C8: both branches at concrete sessions carrying unrelated
session data. -/
theorem C8_witness :
    (({ solution := some ["A4", "A4", "A4", "A4", "A4"], rest := [("k", "v")] } : Session).solution
        = some ["A4", "A4", "A4", "A4", "A4"]) ∧
    createChallenge (fun _ => 0) { solution := some ["A4", "A4", "A4", "A4", "A4"], rest := [("k", "v")] }
      = (["A4", "A4", "A4", "A4", "A4"],
         { solution := some ["A4", "A4", "A4", "A4", "A4"], rest := [("k", "v")] }) ∧
    createChallenge (fun _ => 0) { solution := none, rest := [("k", "v")] }
      = (buildChallenge (fun _ => 0),
         { solution := some (buildChallenge (fun _ => 0)), rest := [("k", "v")] }) :=
  ⟨rfl,
   (C8_challenge_reuse_or_store (fun _ => 0) _).1 ["A4", "A4", "A4", "A4", "A4"] rfl,
   (C8_challenge_reuse_or_store (fun _ => 0)
     { solution := none, rest := [("k", "v")] }).2 rfl⟩

/-- C9: whenever any of the three guard cases holds (no pending Solution,
absent answer, or length mismatch), `verify` answers with the one fixed
generic response `invalidResponse` (`success = false`,
message `Invalid request.`) — the three cases are indistinguishable from
the response and no exception is raised (`verify` is a total function). -/
theorem C9_generic_invalid_response (sess : Session) (ans : Option (List String))
    (h : invalidGuard sess ans) : (verify sess ans).1 = invalidResponse := by
  rw [verify_invalid sess ans h]

/-- Witness for C9 at a length mismatch (solution length 5, answer
length 3). -/
theorem C9_witness :
    invalidGuard { solution := some ["C4", "D4", "E4", "F4", "G4"], rest := [] }
        (some ["C4", "D4", "E4"]) ∧
    (verify { solution := some ["C4", "D4", "E4", "F4", "G4"], rest := [] }
        (some ["C4", "D4", "E4"])).1 = invalidResponse :=
  ⟨Or.inr (Or.inr ⟨["C4", "D4", "E4", "F4", "G4"], ["C4", "D4", "E4"], rfl, rfl, by simp⟩),
   C9_generic_invalid_response _ _
     (Or.inr (Or.inr ⟨["C4", "D4", "E4", "F4", "G4"], ["C4", "D4", "E4"], rfl, rfl, by simp⟩))⟩

/-- C10: a `verify` call that takes the generic invalid branch leaves the
whole session exactly as it was (a pending Solution survives), and the
Solution is cleared precisely by a `verify` call whose answer is present
and of matching length. -/
theorem C10_state_unchanged_on_invalid (sess : Session) (ans : Option (List String)) :
    (invalidGuard sess ans → (verify sess ans).2 = sess) ∧
    (∀ sol a, sess.solution = some sol → ans = some a → a.length = sol.length →
      (verify sess ans).2.solution = none) := by
  constructor
  · intro h
    rw [verify_invalid sess ans h]
  · intro sol a hsol hans hlen
    subst hans
    rw [verify_clears sess sol a hsol hlen]

/-- Witness for C10: a wrong-length answer leaves the Solution in place; a
matching-length answer clears it. -/
theorem C10_witness :
    invalidGuard { solution := some ["C4", "D4", "E4", "F4", "G4"], rest := [] }
        (some ["C4"]) ∧
    (verify { solution := some ["C4", "D4", "E4", "F4", "G4"], rest := [] }
        (some ["C4"])).2 = { solution := some ["C4", "D4", "E4", "F4", "G4"], rest := [] } ∧
    (verify { solution := some ["C4", "D4", "E4", "F4", "G4"], rest := [] }
        (some ["C4", "C4", "C4", "C4", "C4"])).2.solution = none :=
  ⟨Or.inr (Or.inr ⟨["C4", "D4", "E4", "F4", "G4"], ["C4"], rfl, rfl, by simp⟩),
   (C10_state_unchanged_on_invalid _ _).1
     (Or.inr (Or.inr ⟨["C4", "D4", "E4", "F4", "G4"], ["C4"], rfl, rfl, by simp⟩)),
   (C10_state_unchanged_on_invalid { solution := some ["C4", "D4", "E4", "F4", "G4"], rest := [] }
       (some ["C4", "C4", "C4", "C4", "C4"])).2
     ["C4", "D4", "E4", "F4", "G4"] ["C4", "C4", "C4", "C4", "C4"] rfl rfl rfl⟩

end MusicalCaptcha
